import Mathlib

/-
Shallow embedding of the ring event-pipeline engine (jung-digital/ring).

Embedded source files:
  * src/Thread.js                 — the sequential pipeline runner (class Thread)
  * src/util/executors.js         — buildArgumentsFromRingaEvent, the argument resolver
  * CommandFactory (unnamed part) — CommandFactory.build / cacheArguments
  * RingaEvent (unnamed part)     — the dispatch handle: catch bookkeeping,
                                    done/fail aggregation, listeners, promise chain

Modelling conventions:
  * JavaScript values that matter to the claims are modelled by JSValue; object
    identity is an opaque Nat reference.  JS truthiness is JSValue.truthy.
  * JS objects used as keyed bags (ringaEvent.detail, injections, listeners)
    are association lists with unique keys; assignment m[k] = v is assocSet,
    hasOwnProperty is assocHas, m[k] is assocGet? / assocGetD.
  * Code that can throw is embedded in Except JSException.  A strict-mode
    ReferenceError caused by an unbound identifier is JSException.referenceError.
  * Side effects that the claims talk about (invoking the caller-supplied
    done/fail handlers, starting an executor, setTimeout scheduling,
    console.error diagnostics, listener invocation) are recorded in explicit
    effect lists so theorems can quantify over what was and was not invoked.
  * __DEV__ is taken to be true (the development build: the tests set
    window.__DEV__ = true, and the spec describes the dev-mode guards).
  * Out of scope per the spec and hence not modelled: the transport bus,
    inspector/telemetry dispatch, debug string formatting (addDebug),
    timestamps.  RingaObject.destroy is modelled as returning the object
    itself and leaving the owning container untouched (removal from the
    container happens only through Thread.removeExecutor in the source).
-/

/-- Model of a JavaScript value as far as the claims need one.  Object
identity (functions, objects, errors carried as values) is an opaque `ref`. -/
inductive JSValue where
  | undefined
  | null
  | bool (b : Bool)
  | num (n : Int)
  | str (s : String)
  | ref (id : Nat)
  deriving DecidableEq

/-- JavaScript truthiness: undefined, null, false, 0 and the empty string are
falsy, everything else we model is truthy. -/
def JSValue.truthy : JSValue → Bool
  | .undefined => false
  | .null => false
  | .bool b => b
  | .num n => n != 0
  | .str s => s != ""
  | .ref _ => true

/-- Exceptions a modelled code path can raise. `thrown` is an explicit
`throw Error(msg)`; `referenceError` is the strict-mode error raised when an
unbound identifier is evaluated; `typeError` is a member access on a nullish
value. -/
inductive JSException where
  | thrown (msg : String)
  | referenceError (name : String)
  | typeError (msg : String)
  deriving DecidableEq

/-- Lookup in a keyed bag: the JS expression m[k] when the key may be absent. -/
def assocGet? {α : Type} (m : List (String × α)) (k : String) : Option α :=
  (m.find? (fun p => p.1 == k)).map Prod.snd

/-- The JS test m.hasOwnProperty(k). -/
def assocHas {α : Type} (m : List (String × α)) (k : String) : Bool :=
  (assocGet? m k).isSome

/-- The JS read m[k], which yields undefined for a missing key. -/
def assocGetD (m : List (String × JSValue)) (k : String) : JSValue :=
  (assocGet? m k).getD .undefined

/-- The JS assignment m[k] = v: overwrite the existing binding in place, or
append a new binding at the end (JS objects keep insertion order). -/
def assocSet {α : Type} (m : List (String × α)) (k : String) (v : α) : List (String × α) :=
  match m with
  | [] => [(k, v)]
  | p :: rest => if p.1 == k then (k, v) :: rest else p :: assocSet rest k v

/-
Dispatch handle: RingaEvent.

State relevant to the claims: the in-flight controller list (catchers), the
completed controller list (_catchers), the recorded error list (_errors,
undefined until the first pushError), the caught flag, the listener registry,
the log of internally dispatched notifications (dispatchedEvents) and a trace
of every listener invocation (calls) so theorems can talk about which handler
was invoked with which payload.
-/

/-- One entry of RingaEvent.dispatchedEvents: the object literal
pushed by _dispatchEvent (type, detail, error — the kill flag is not stored). -/
structure DispatchedRecord where
  type : String
  detail : JSValue
  error : JSValue
  deriving DecidableEq

/-- A recorded invocation of a listener.  A live dispatch passes an object with
a kill field (kill = some value); the replay done by addListener passes the
stored historical record, which has no kill field (kill = none). -/
structure ListenerCall where
  handler : Nat
  type : String
  detail : JSValue
  error : JSValue
  kill : Option JSValue
  deriving DecidableEq

/-- The aggregation-relevant state of a RingaEvent. -/
structure REvent where
  catchers : List Nat
  «_catchers» : List Nat
  «_errors» : Option (List JSValue)
  «__caught» : Bool
  listeners : List (String × List Nat)
  dispatchedEvents : List DispatchedRecord
  calls : List ListenerCall
  deriving DecidableEq

/-- RingaEvent.DONE. -/
def REvent.DONE : String := "done"

/-- RingaEvent.FAIL. -/
def REvent.FAIL : String := "fail"

/-- The state fields set up by the RingaEvent constructor. -/
def REvent.init : REvent :=
  { catchers := [], «_catchers» := [], «_errors» := none, «__caught» := false,
    listeners := [], dispatchedEvents := [], calls := [] }

/-- The getter RingaEvent.errors, which returns the private _errors field. -/
def REvent.errors (ev : REvent) : Option (List JSValue) := ev.«_errors»

/-- RingaEvent._dispatchEvent(type, detail, error, kill): logs the
notification (without kill) and invokes every registered listener for that
type with an object carrying type, detail, error and kill. -/
def REvent._dispatchEvent (ev : REvent) (type : String) (detail error kill : JSValue) : REvent :=
  let ev1 := { ev with dispatchedEvents := ev.dispatchedEvents ++ [⟨type, detail, error⟩] }
  match assocGet? ev1.listeners type with
  | some hs =>
      { ev1 with calls := ev1.calls ++ hs.map (fun h => ⟨h, type, detail, error, some kill⟩) }
  | none => ev1

/-- RingaEvent._caught(controller): sets the caught flag and appends the
controller to the in-flight list. -/
def REvent._caught (ev : REvent) (controller : Nat) : REvent :=
  { ev with «__caught» := true, catchers := ev.catchers ++ [controller] }

/-- RingaEvent._uncatch(controller): splices the first occurrence of the
controller out of the in-flight list and pushes it onto the completed list;
throws when the controller was never marked caught (dev guard). -/
def REvent._uncatch (ev : REvent) (controller : Nat) : Except JSException REvent :=
  if ev.catchers.contains controller then
    .ok { ev with catchers := ev.catchers.erase controller,
                  «_catchers» := ev.«_catchers» ++ [controller] }
  else
    .error (.thrown "RingaEvent::_uncatch(): controller that is uncatching could not be found. Was done called twice?")

/-- RingaEvent.pushError(error): lazily initialises _errors and appends. -/
def REvent.pushError (ev : REvent) (error : JSValue) : REvent :=
  { ev with «_errors» := some ((ev.«_errors»).getD [] ++ [error]) }

/-- RingaEvent._fail(controller, error, killed): uncatches the controller only
when killed is truthy, then dispatches a live FAIL notification carrying the
error and the killed flag. -/
def REvent._fail (ev : REvent) (controller : Nat) (error killed : JSValue) : Except JSException REvent := do
  let ev ← if killed.truthy then REvent._uncatch ev controller else pure ev
  pure (REvent._dispatchEvent ev REvent.FAIL .undefined error killed)

/-- RingaEvent._done(controller): uncatches the controller; when the in-flight
list has become empty it dispatches DONE when no errors were recorded.  When
errors were recorded the source executes
  this._dispatchEvent(RingaEvent.FAIL, undefined, error);
in which the identifier error is unbound (it is neither a parameter of _done
nor a module-level binding), so a strict-mode ES module raises a
ReferenceError while evaluating the argument list, before any dispatch. -/
def REvent._done (ev : REvent) (controller : Nat) : Except JSException REvent := do
  let ev ← REvent._uncatch ev controller
  if ev.catchers.length == 0 then
    match ev.«_errors» with
    | some l =>
        if l.length != 0 then
          .error (.referenceError "error")
        else
          pure (REvent._dispatchEvent ev REvent.DONE .undefined .undefined .undefined)
    | none => pure (REvent._dispatchEvent ev REvent.DONE .undefined .undefined .undefined)
  else
    pure ev

/-- RingaEvent.addListener(eventType, handler): creates the per-type list on
demand, throws when the same handler is already registered for that type,
otherwise registers it and immediately replays every already-dispatched
notification of that type to the new handler (with the stored record as the
payload, which has no kill field). -/
def REvent.addListener (ev : REvent) (eventType : String) (handler : Nat) : Except JSException REvent :=
  let cur := (assocGet? ev.listeners eventType).getD []
  let ev1 := { ev with listeners := assocSet ev.listeners eventType cur }
  if cur.contains handler then
    .error (.thrown "RingaEvent::addListener(): the same function was added as a listener twice")
  else
    let ev2 := { ev1 with listeners := assocSet ev1.listeners eventType (cur ++ [handler]) }
    let replays := (ev2.dispatchedEvents.filter (fun d => d.type == eventType)).map
      (fun d => ListenerCall.mk handler d.type d.detail d.error none)
    .ok { ev2 with calls := ev2.calls ++ replays }

/-
Claim C1 scenario: a handle caught by controllers 1 and 2; controller 1 has a
non-fatal executor failure (the error is recorded on the handle and a live
FAIL notification goes out), the thread recovers and controller 1 reports
done; controller 2 then reports done.
-/

/-- The C1 scenario up to and including the first controller reporting done. -/
def scenarioTwoControllersAfterFirstDone : Except JSException REvent := do
  let ev := REvent._caught (REvent._caught REvent.init 1) 2
  let ev := REvent.pushError ev (.str "executor failure")
  let ev ← REvent._fail ev 1 (.str "executor failure") (.bool false)
  REvent._done ev 1

/-- The C1 scenario through the second controller reporting done. -/
def scenarioTwoControllersBothDone : Except JSException REvent := do
  let ev ← scenarioTwoControllersAfterFirstDone
  REvent._done ev 2

/-
Pipeline runner: class Thread (src/Thread.js).

The executor container (RingaHashArray, out of scope per the spec: an opaque
insertion-ordered collection with membership test and removal) is modelled as
a list of executor ids; this.all[i] is list indexing, this.remove is List.erase.
-/

/-- The Thread state the claims are about.  ringaEvent, doneHandler and
failHandler are opaque callbacks; their invocations are recorded as effects. -/
structure Thread where
  all : List Nat
  index : Nat
  running : Bool
  destroyed : Bool
  error : Option JSValue
  deriving DecidableEq

/-- Observable actions of the Thread code paths. -/
inductive ThreadEffect where
  | executorStarted (id : Nat)
  | executorDestroyed (id : Nat)
  | executorRemoved (id : Nat)
  | scheduledNext
  | calledDoneHandler
  | calledFailHandler (error : JSValue) (kill : Bool)
  | loggedCouldNotFindError
  deriving DecidableEq

/-- The fields the Thread constructor initialises (running = false; the index
is only assigned by run, modelled as 0 here). -/
def Thread.construct : Thread :=
  { all := [], index := 0, running := false, destroyed := false, error := none }

/-- Thread.removeExecutor(executor): inspector telemetry is out of scope; the
executor is removed only when the container still has it.  The argument may be
undefined (none) when the handler could not find an executor. -/
def Thread.removeExecutor (s : Thread) (executor : Option Nat) : Thread × List ThreadEffect :=
  match executor with
  | some id =>
      if s.all.contains id then
        ({ s with all := s.all.erase id }, [.executorRemoved id])
      else (s, [])
  | none => (s, [])

/-- Thread._finCouldNotFindError: silently returns when the thread is
destroyed, otherwise logs a console.error diagnostic. -/
def Thread._finCouldNotFindError (s : Thread) : List ThreadEffect :=
  if s.destroyed then [] else [.loggedCouldNotFindError]

/-- Thread._executorDoneHandler: destroys the executor at the current index
(or runs the could-not-find path when it is missing), increments the index,
and either schedules the next step with setTimeout or invokes the
caller-supplied doneHandler and removes the final executor. -/
def Thread._executorDoneHandler (s : Thread) : Thread × List ThreadEffect :=
  let executor := s.all[s.index]?
  let effs0 := match executor with
    | none => Thread._finCouldNotFindError s
    | some id => [.executorDestroyed id]
  let s1 : Thread := { s with index := s.index + 1 }
  if s1.index < s1.all.length then
    (s1, effs0 ++ [.scheduledNext])
  else
    let r := Thread.removeExecutor s1 executor
    (r.1, effs0 ++ [.calledDoneHandler] ++ r.2)

/-- Thread._executorFailHandler(error, kill): destroys the executor at the
current index (or runs the could-not-find path), records the error, invokes
the caller-supplied failHandler with the thread, the error and the kill flag;
when kill is falsy it then behaves exactly like _executorDoneHandler, when
kill is truthy it removes the executor and stops. -/
def Thread._executorFailHandler (s : Thread) (error : JSValue) (kill : Bool) : Thread × List ThreadEffect :=
  let executor := s.all[s.index]?
  let effs0 := match executor with
    | none => Thread._finCouldNotFindError s
    | some id => [.executorDestroyed id]
  let s1 : Thread := { s with error := some error }
  let effs1 := [ThreadEffect.calledFailHandler error kill]
  if !kill then
    let r := Thread._executorDoneHandler s1
    (r.1, effs0 ++ effs1 ++ r.2)
  else
    let r := Thread.removeExecutor s1 executor
    (r.1, effs0 ++ effs1 ++ r.2)

/-- Thread.executeNext: captures the executor at the current index, evicts the
previous executor when the index is positive, and starts the captured
executor.  When the captured executor is missing, calling _execute on
undefined raises a TypeError which the try block forwards to
_executorFailHandler(error) with kill undefined (falsy). -/
def Thread.executeNext (s : Thread) : Thread × List ThreadEffect :=
  let executor := s.all[s.index]?
  let r0 :=
    if s.index > 0 then Thread.removeExecutor s (s.all[s.index - 1]?)
    else (s, [])
  match executor with
  | some id => (r0.1, r0.2 ++ [.executorStarted id])
  | none =>
      let r1 := Thread._executorFailHandler r0.1 (.str "TypeError") false
      (r1.1, r0.2 ++ r1.2)

/-- Thread.kill: clears the running flag and nothing else. -/
def Thread.kill (s : Thread) : Thread :=
  { s with running := false }

/-- Thread.run(ringaEvent, doneHandler, failHandler): the three dev guards in
source order (already running, empty factory list, missing ringaEvent), then
buildExecutors adds one executor per factory entry, the index is reset to 0
and executeNext starts the first executor.  Note the source never sets
running to true. -/
def Thread.run (s : Thread) (ringaEventPresent : Bool) (factoryIds : List Nat) :
    Except JSException (Thread × List ThreadEffect) :=
  if s.running then
    .error (.thrown "Thread::run(): you cannot start a thread while it is already running!")
  else if factoryIds.length == 0 then
    .error (.thrown "Thread::run(): attempting to run a thread with no executors!")
  else if !ringaEventPresent then
    .error (.thrown "Thread::run(): cannot run a thread without a RingaEvent!")
  else
    let s1 : Thread := { s with all := s.all ++ factoryIds, index := 0 }
    .ok (Thread.executeNext s1)

/-
Executor factory: CommandFactory.

The run-time shape of an executee is modelled by the observations the
if-chain in build makes of it: the typeof tag, whether it is null (typeof
null is the object tag), whether accessing .then yields a callable, whether
its prototype is an instance of CommandAbstract, whether it is an Array, and
whether it is an instance of RingEventFactory.
-/

/-- The possible results of the JS typeof operator that build can see. -/
inductive TypeTag where
  | string
  | number
  | boolean
  | undefined
  | function
  | object
  | symbol
  deriving DecidableEq

/-- The string typeof produces, used in the unsupported-executee message. -/
def TypeTag.toTypeofString : TypeTag → String
  | .string => "string"
  | .number => "number"
  | .boolean => "boolean"
  | .undefined => "undefined"
  | .function => "function"
  | .object => "object"
  | .symbol => "symbol"

/-- The run-time shape of an executee as observed by CommandFactory.build. -/
structure Executee where
  tag : TypeTag
  isNull : Bool
  hasCallableThen : Bool
  protoInstanceOfCommandAbstract : Bool
  isArray : Bool
  instanceOfRingEventFactory : Bool
  deriving DecidableEq

/-- A nullish executee: null (typeof object) or undefined; accessing a member
on it raises a TypeError. -/
def Executee.nullish (e : Executee) : Bool :=
  e.isNull || e.tag == TypeTag.undefined

/-- The Executor variant that build produced. -/
inductive BuiltExecutor where
  | commandEventWrapper
  | commandPromiseWrapper
  | commandInstance (argNames : List String)
  | commandFunctionWrapper
  | commandsParallelWrapper
  deriving DecidableEq

/-- CommandFactory state: the executee handed to the constructor plus the
argument-name cache written by cacheArguments. -/
structure CommandFactory where
  executee : Executee
  argNames : Option (List String)
  deriving DecidableEq

/-- CommandFactory.build(commandThread).  The introspectedArgNames parameter
stands for what getArgNames(instance.execute) would return; the Bool in the
result records whether this call performed that introspection (cacheArguments).
The branch order is the source order: string; the .then access (raising a
TypeError on a nullish executee); callable then; function (command class with
caching, else plain function); Array; RingEventFactory instance; otherwise
the unsupported-executee error naming typeof of the executee. -/
def CommandFactory.build (fac : CommandFactory) (introspectedArgNames : List String) :
    Except JSException (BuiltExecutor × CommandFactory × Bool) :=
  let e := fac.executee
  if e.tag == TypeTag.string then
    .ok (.commandEventWrapper, fac, false)
  else if e.nullish then
    .error (.typeError "Cannot read property then of null or undefined")
  else if e.hasCallableThen then
    .ok (.commandPromiseWrapper, fac, false)
  else if e.tag == TypeTag.function then
    if e.protoInstanceOfCommandAbstract then
      match fac.argNames with
      | some names => .ok (.commandInstance names, fac, false)
      | none =>
          .ok (.commandInstance introspectedArgNames,
               { fac with argNames := some introspectedArgNames }, true)
    else
      .ok (.commandFunctionWrapper, fac, false)
  else if e.isArray then
    .ok (.commandsParallelWrapper, fac, false)
  else if e.tag == TypeTag.object && e.instanceOfRingEventFactory then
    .ok (.commandEventWrapper, fac, false)
  else
    .error (.thrown ("CommandFactory::build(): the type of executee you provided is not supported by Ring: "
      ++ e.tag.toTypeofString))

/-- Modelled from the spec (section 4.3 dispatch table, as amended by the
observed null behavior): classify the executee shape in the order the claim
lists the shapes — a string is an event trigger; a nullish value raises at
the then-member access; a value with a callable then member is a promise
wrapper; a command-class callable is instantiated (introspecting the declared
argument names only when the cache is empty); any other callable is a
function wrapper; an array is a parallel group; an existing event-factory
object is an event trigger; anything else is the unsupported-executee error
naming the offending typeof. -/
def specBuildDispatch (fac : CommandFactory) (introspectedArgNames : List String) :
    Except JSException (BuiltExecutor × CommandFactory × Bool) :=
  let e := fac.executee
  if e.tag == TypeTag.string then .ok (.commandEventWrapper, fac, false)
  else if e.nullish then .error (.typeError "Cannot read property then of null or undefined")
  else if e.hasCallableThen then .ok (.commandPromiseWrapper, fac, false)
  else if e.tag == TypeTag.function && e.protoInstanceOfCommandAbstract then
    match fac.argNames with
    | some cached => .ok (.commandInstance cached, fac, false)
    | none => .ok (.commandInstance introspectedArgNames,
                   { fac with argNames := some introspectedArgNames }, true)
  else if e.tag == TypeTag.function then .ok (.commandFunctionWrapper, fac, false)
  else if e.isArray then .ok (.commandsParallelWrapper, fac, false)
  else if e.tag == TypeTag.object && e.instanceOfRingEventFactory then
    .ok (.commandEventWrapper, fac, false)
  else
    .error (.thrown ("CommandFactory::build(): the type of executee you provided is not supported by Ring: "
      ++ e.tag.toTypeofString))

/-- A null executee: typeof null is the object tag. -/
def nullExecutee : Executee :=
  { tag := TypeTag.object, isNull := true, hasCallableThen := false,
    protoInstanceOfCommandAbstract := false, isArray := false,
    instanceOfRingEventFactory := false }

/-- A factory holding a null executee, before any build. -/
def nullExecuteeFactory : CommandFactory :=
  { executee := nullExecutee, argNames := none }

/-
Argument resolver: buildArgumentsFromRingaEvent (src/util/executors.js).
-/

/-- The values the resolver closes over when it builds the executor-level
injection table (the executor, its controller and thread, the ringaEvent and
its customEvent, target and detail, the done/fail continuations and the
recursive promise results). -/
structure ExecutorContext where
  controllerRef : JSValue
  threadRef : JSValue
  ringaEventRef : JSValue
  customEvent : JSValue
  target : JSValue
  detailRef : JSValue
  doneRef : JSValue
  failRef : JSValue
  lastPromiseResult : JSValue
  lastPromiseError : JSValue
  deriving DecidableEq

/-- The executor-level injection table literal from the source, in its key
order. -/
def baseInjections (ctx : ExecutorContext) : List (String × JSValue) :=
  [("$controller", ctx.controllerRef),
   ("$thread", ctx.threadRef),
   ("$ringaEvent", ctx.ringaEventRef),
   ("$customEvent", ctx.customEvent),
   ("$target", ctx.target),
   ("$detail", ctx.detailRef),
   ("done", ctx.doneRef),
   ("fail", ctx.failRef),
   ("$lastPromiseResult", ctx.lastPromiseResult),
   ("$lastPromiseError", ctx.lastPromiseError)]

/-- The for-in merge of controller.options.injections into the executor-level
injection table: each controller-level binding overwrites in turn. -/
def mergeInjections (base overrides : List (String × JSValue)) : List (String × JSValue) :=
  overrides.foldl (fun acc p => assocSet acc p.1 p.2) base

/-- Resolution of a single declared argument name (the body of the forEach):
the dispatch handle detail bag is consulted first when it is truthy, then the
merged injection table, otherwise the unresolved-argument error that names
the missing property, the full declared-name list and the dispatch origin. -/
def resolveArgument (injections : List (String × JSValue))
    (detail : Option (List (String × JSValue)))
    (expectedArguments : List String) (argName : String) : Except JSException JSValue :=
  let detailHas := match detail with
    | some d => assocHas d argName
    | none => false
  if detailHas then
    .ok (assocGetD ((detail).getD []) argName)
  else if assocHas injections argName then
    .ok (assocGetD injections argName)
  else
    .error (.thrown ("the property " ++ argName
      ++ " was not provided on the dispatched ringaEvent. Expected Arguments were: ["
      ++ String.intercalate ", " expectedArguments
      ++ "] Dispatched from: unknown stack."))

/-- The forEach over expectedArguments: each declared name is resolved in
order and pushed onto the args array; a resolution failure propagates out of
the whole loop as the thrown error. -/
def buildArgumentsLoop (injections : List (String × JSValue))
    (detail : Option (List (String × JSValue)))
    (expectedArguments : List String) : List String → Except JSException (List JSValue)
  | [] => .ok []
  | a :: rest =>
      match resolveArgument injections detail expectedArguments a with
      | .ok v =>
          match buildArgumentsLoop injections detail expectedArguments rest with
          | .ok vs => .ok (v :: vs)
          | .error err => .error err
      | .error err => .error err

/-- buildArgumentsFromRingaEvent(executor, expectedArguments, ringaEvent):
builds the injection table (executor-level literal merged with the
controller-level injections) and resolves every declared name in order,
detail first, injections second, error otherwise. -/
def buildArgumentsFromRingaEvent (ctx : ExecutorContext)
    (controllerInjections : List (String × JSValue))
    (expectedArguments : List String)
    (detail : Option (List (String × JSValue))) : Except JSException (List JSValue) :=
  let injections := mergeInjections (baseInjections ctx) controllerInjections
  buildArgumentsLoop injections detail expectedArguments expectedArguments

/-- The effect of the RingaEvent constructor on the caller-supplied detail
bag: this.detail = detail; detail.ringaEvent = this. -/
def constructDetail (detail : List (String × JSValue)) (selfRef : Nat) : List (String × JSValue) :=
  assocSet detail "ringaEvent" (.ref selfRef)

/-
Promise-result chain: the lastPromiseResult / lastPromiseError getters.
-/

/-- The causal chain of a RingaEvent as far as the promise getters walk it:
the private _lastPromiseResult and _lastPromiseError fields plus the optional
causing event (lastEvent). -/
inductive REventChain where
  | mk («_lastPromiseResult» : JSValue) («_lastPromiseError» : JSValue)
       (lastEvent : Option REventChain)

/-- The lastPromiseResult getter: returns the own field when it is truthy,
otherwise recurses into the causing event, otherwise undefined. -/
def REventChain.lastPromiseResult : REventChain → JSValue
  | .mk r _ le =>
      if r.truthy then r
      else
        match le with
        | some e => REventChain.lastPromiseResult e
        | none => .undefined

/-- The lastPromiseError getter: returns the own field when it is truthy,
otherwise recurses into the causing event, otherwise undefined. -/
def REventChain.lastPromiseError : REventChain → JSValue
  | .mk _ e le =>
      if e.truthy then e
      else
        match le with
        | some p => REventChain.lastPromiseError p
        | none => .undefined

/-- The value the lastPromiseResult getter falls back to: the causing event
chained result when a causing event exists, undefined otherwise. -/
def chainLastPromiseResult (le : Option REventChain) : JSValue :=
  match le with
  | some p => p.lastPromiseResult
  | none => .undefined

/-- The value the lastPromiseError getter falls back to: the causing event
chained error when a causing event exists, undefined otherwise. -/
def chainLastPromiseError (le : Option REventChain) : JSValue :=
  match le with
  | some p => p.lastPromiseError
  | none => .undefined

/-
Concrete fixtures used by counterexamples and witnesses.
-/

/-- An executor context with opaque done/fail continuations; the remaining
well-known injectables are undefined in the fixture. -/
def sampleContext : ExecutorContext :=
  { controllerRef := .undefined, threadRef := .undefined, ringaEventRef := .undefined,
    customEvent := .undefined, target := .undefined, detailRef := .undefined,
    doneRef := .ref 101, failRef := .ref 102,
    lastPromiseResult := .undefined, lastPromiseError := .undefined }

/-- A thread whose owner was torn down mid-flight: the destroyed flag is set
and the executor container has been emptied. -/
def destroyedThread : Thread :=
  { all := [], index := 0, running := false, destroyed := true, error := none }

/-- A running thread mid-flight: executor 5 is current, executor 6 pending. -/
def midFlightThread : Thread :=
  { all := [5, 6], index := 0, running := false, destroyed := false, error := none }

/-- A dispatch handle on which a DONE notification has already gone out. -/
def eventWithDoneDispatched : REvent :=
  REvent._dispatchEvent REvent.init REvent.DONE .undefined .undefined .undefined

/-- Unwraps an ok result, falling back to a default (used only to name
concrete states in closed witness statements). -/
def okOr (r : Except JSException REvent) (d : REvent) : REvent :=
  match r with
  | .ok e => e
  | .error _ => d

/-- The handle after handler 7 subscribed to DONE on eventWithDoneDispatched. -/
def eventAfterFirstAdd : REvent :=
  okOr (REvent.addListener eventWithDoneDispatched REvent.DONE 7) REvent.init

/-- The handle after a second, different handler 8 also subscribed to DONE. -/
def eventAfterSecondAdd : REvent :=
  okOr (REvent.addListener eventAfterFirstAdd REvent.DONE 8) REvent.init

/-- The shape of a command-class executee: a function whose prototype is an
instance of CommandAbstract. -/
def commandClassExecutee : Executee :=
  { tag := TypeTag.function, isNull := false, hasCallableThen := false,
    protoInstanceOfCommandAbstract := true, isArray := false,
    instanceOfRingEventFactory := false }

/-- A factory over a command-class executee, before any build. -/
def commandClassFactory : CommandFactory :=
  { executee := commandClassExecutee, argNames := none }

/-
Helper lemmas about the keyed-bag operations.
-/


theorem assocGet?_cons {α : Type} (p : String × α) (rest : List (String × α)) (k : String) :
    assocGet? (p :: rest) k = if p.1 = k then some p.2 else assocGet? rest k := by
  by_cases h : p.1 = k
  · simp [assocGet?, List.find?, h]
  · simp only [assocGet?, List.find?]
    rw [show (p.1 == k) = false by simpa using h]
    simp [h]

theorem assocSet_cons {α : Type} (p : String × α) (rest : List (String × α)) (k : String) (v : α) :
    assocSet (p :: rest) k v = if p.1 = k then (k, v) :: rest else p :: assocSet rest k v := by
  by_cases h : p.1 = k
  · simp [assocSet, h]
  · simp only [assocSet]
    rw [show (p.1 == k) = false by simpa using h]
    simp [h]

theorem assocGet?_assocSet_self {α : Type} (m : List (String × α)) (k : String) (v : α) :
    assocGet? (assocSet m k v) k = some v := by
  induction m with
  | nil => simp [assocSet, assocGet?_cons]
  | cons p rest ih =>
      rw [assocSet_cons]
      by_cases h : p.1 = k
      · rw [if_pos h, assocGet?_cons]
        simp
      · rw [if_neg h, assocGet?_cons, if_neg h]
        exact ih

theorem assocGet?_assocSet_ne {α : Type} (m : List (String × α)) (k k' : String) (v : α)
    (hne : k' ≠ k) : assocGet? (assocSet m k v) k' = assocGet? m k' := by
  induction m with
  | nil => simp [assocSet, assocGet?_cons, assocGet?, Ne.symm hne]
  | cons p rest ih =>
      rw [assocSet_cons]
      by_cases h : p.1 = k
      · rw [if_pos h, assocGet?_cons, assocGet?_cons, if_neg (fun hk => hne hk.symm), if_neg]
        rw [h]
        exact fun hk => hne hk.symm
      · rw [if_neg h, assocGet?_cons, assocGet?_cons]
        by_cases h2 : p.1 = k'
        · simp [h2]
        · rw [if_neg h2, if_neg h2]
          exact ih

theorem assocGet?_none_of_not_key {α : Type} (m : List (String × α)) (k : String)
    (h : k ∉ m.map Prod.fst) : assocGet? m k = none := by
  induction m with
  | nil => rfl
  | cons p rest ih =>
      simp only [List.map_cons, List.mem_cons, not_or] at h
      rw [assocGet?_cons, if_neg (fun hk => h.1 hk.symm)]
      exact ih h.2

theorem mergeInjections_nil (base : List (String × JSValue)) :
    mergeInjections base [] = base := rfl

theorem mergeInjections_cons (base : List (String × JSValue)) (p : String × JSValue)
    (rest : List (String × JSValue)) :
    mergeInjections base (p :: rest) = mergeInjections (assocSet base p.1 p.2) rest := rfl

theorem mergeInjections_lookup_none (ctrl : List (String × JSValue)) (base : List (String × JSValue))
    (name : String) (h : assocGet? ctrl name = none) :
    assocGet? (mergeInjections base ctrl) name = assocGet? base name := by
  induction ctrl generalizing base with
  | nil => rfl
  | cons p rest ih =>
      rw [assocGet?_cons] at h
      by_cases hk : p.1 = name
      · rw [if_pos hk] at h; exact absurd h (by simp)
      · rw [if_neg hk] at h
        rw [mergeInjections_cons, ih _ h, assocGet?_assocSet_ne _ _ _ _ (fun he => hk he.symm)]

theorem mergeInjections_lookup_some (ctrl : List (String × JSValue)) (base : List (String × JSValue))
    (name : String) (w : JSValue)
    (hnodup : (ctrl.map Prod.fst).Nodup) (h : assocGet? ctrl name = some w) :
    assocGet? (mergeInjections base ctrl) name = some w := by
  induction ctrl generalizing base with
  | nil => simp [assocGet?] at h
  | cons p rest ih =>
      simp only [List.map_cons, List.nodup_cons] at hnodup
      rw [assocGet?_cons] at h
      by_cases hk : p.1 = name
      · rw [if_pos hk] at h
        have hv : p.2 = w := by simpa using h
        have hnone : assocGet? rest name = none :=
          assocGet?_none_of_not_key rest name (by rw [← hk]; exact hnodup.1)
        rw [mergeInjections_cons, mergeInjections_lookup_none _ _ _ hnone, hk, hv]
        exact assocGet?_assocSet_self base name w
      · rw [if_neg hk] at h
        rw [mergeInjections_cons]
        exact ih (assocSet base p.1 p.2) hnodup.2 h

/-
Claim C4: detail first, injections second.
-/

/-- C4: for every declared parameter name, argument resolution consults the
dispatch handle value bag (detail) first and the injection table second: a
name present as a key of the value bag resolves to the bag value even when a
controller-level injection with the same name exists, and a name absent from
the bag but present among the controller-level injections resolves to the
injection value. -/
theorem resolver_detail_first_injections_second
    (ctx : ExecutorContext) (ctrlInj : List (String × JSValue))
    (d : List (String × JSValue)) (name : String) (v w : JSValue)
    (hnodup : (ctrlInj.map Prod.fst).Nodup) :
    (assocGet? d name = some v →
      buildArgumentsFromRingaEvent ctx ctrlInj [name] (some d) = .ok [v]) ∧
    (assocGet? d name = none → assocGet? ctrlInj name = some w →
      buildArgumentsFromRingaEvent ctx ctrlInj [name] (some d) = .ok [w]) := by
  constructor
  · intro h
    simp [buildArgumentsFromRingaEvent, buildArgumentsLoop, resolveArgument,
          assocHas, assocGetD, h]
  · intro h hw
    have hmerged : assocGet? (mergeInjections (baseInjections ctx) ctrlInj) name = some w :=
      mergeInjections_lookup_some ctrlInj (baseInjections ctx) name w hnodup hw
    simp [buildArgumentsFromRingaEvent, buildArgumentsLoop, resolveArgument,
          assocHas, assocGetD, h, hmerged]

/-- Witness for C4 at the test-suite scenario: a handler declaring
someInjection against a bag with no someInjection key but a controller-level
injection of that name resolves to the injection; with the key also in the
bag the bag value wins. -/
theorem resolver_detail_first_injections_second_witness :
    (((([("someInjection", JSValue.ref 42)] : List (String × JSValue))).map Prod.fst).Nodup
      ∧ assocGet? [("someProp", JSValue.str "whatever")] "someInjection" = none
      ∧ assocGet? [("someInjection", JSValue.ref 42)] "someInjection" = some (JSValue.ref 42))
    ∧ buildArgumentsFromRingaEvent sampleContext [("someInjection", JSValue.ref 42)]
        ["someInjection"] (some [("someProp", JSValue.str "whatever")]) = .ok [JSValue.ref 42]
    ∧ buildArgumentsFromRingaEvent sampleContext [("someInjection", JSValue.ref 42)]
        ["someInjection"] (some [("someInjection", JSValue.str "whatever")])
        = .ok [JSValue.str "whatever"] :=
  ⟨⟨by decide, by decide, by decide⟩,
   (resolver_detail_first_injections_second sampleContext [("someInjection", JSValue.ref 42)]
      [("someProp", JSValue.str "whatever")] "someInjection" JSValue.undefined (JSValue.ref 42)
      (by decide)).2 (by decide) (by decide),
   (resolver_detail_first_injections_second sampleContext [("someInjection", JSValue.ref 42)]
      [("someInjection", JSValue.str "whatever")] "someInjection" (JSValue.str "whatever")
      (JSValue.ref 42) (by decide)).1 (by decide)⟩

/-
Claim C9: the constructor plants a ringaEvent self-reference in the bag.
-/

/-- C9: constructing a RingaEvent mutates the caller-supplied value bag,
storing a self-reference under the key ringaEvent; therefore the bag always
resolves an executor parameter named ringaEvent to the handle itself through
the value-bag branch of the resolver, whatever the controller injections are. -/
theorem constructor_puts_ringaEvent_in_detail
    (detail : List (String × JSValue)) (selfRef : Nat)
    (ctx : ExecutorContext) (ctrlInj : List (String × JSValue)) :
    assocGet? (constructDetail detail selfRef) "ringaEvent" = some (.ref selfRef) ∧
    buildArgumentsFromRingaEvent ctx ctrlInj ["ringaEvent"]
        (some (constructDetail detail selfRef)) = .ok [JSValue.ref selfRef] := by
  have hget : assocGet? (constructDetail detail selfRef) "ringaEvent" = some (.ref selfRef) :=
    assocGet?_assocSet_self detail "ringaEvent" (.ref selfRef)
  refine ⟨hget, ?_⟩
  simp [buildArgumentsFromRingaEvent, buildArgumentsLoop, resolveArgument,
        assocHas, assocGetD, hget]

/-
Claim C10: falsy own promise fields are treated as unset.
-/

theorem lastPromiseResult_unfold (r e : JSValue) (le : Option REventChain) :
    REventChain.lastPromiseResult (.mk r e le)
      = if r.truthy then r else chainLastPromiseResult le := by
  rw [REventChain.lastPromiseResult.eq_def]
  cases le <;> rfl

theorem lastPromiseError_unfold (r e : JSValue) (le : Option REventChain) :
    REventChain.lastPromiseError (.mk r e le)
      = if e.truthy then e else chainLastPromiseError le := by
  rw [REventChain.lastPromiseError.eq_def]
  cases le <;> rfl

theorem lastPromiseResult_truthy_or_undefined (c : REventChain) :
    c.lastPromiseResult.truthy = true ∨ c.lastPromiseResult = JSValue.undefined := by
  cases c with
  | mk r e le =>
      rw [lastPromiseResult_unfold]
      by_cases h : r.truthy
      · rw [if_pos h]; exact Or.inl h
      · rw [if_neg h]
        cases le with
        | some p => exact lastPromiseResult_truthy_or_undefined p
        | none => exact Or.inr rfl

theorem lastPromiseError_truthy_or_undefined (c : REventChain) :
    c.lastPromiseError.truthy = true ∨ c.lastPromiseError = JSValue.undefined := by
  cases c with
  | mk r e le =>
      rw [lastPromiseError_unfold]
      by_cases h : e.truthy
      · rw [if_pos h]; exact Or.inl h
      · rw [if_neg h]
        cases le with
        | some p => exact lastPromiseError_truthy_or_undefined p
        | none => exact Or.inr rfl

/-- C10: when the own last-promise-result (or last-promise-error) field holds
a falsy value, the getter treats it as unset: it returns the causing event
chained value when a causing event exists and undefined otherwise, and it
never returns the stored falsy value itself (undefined excepted, since
undefined is the unset sentinel). -/
theorem lastPromise_falsy_field_treated_as_unset
    (r e : JSValue) (le : Option REventChain)
    (hr : r.truthy = false) (he : e.truthy = false) :
    (REventChain.lastPromiseResult (.mk r e le) = chainLastPromiseResult le) ∧
    (REventChain.lastPromiseError (.mk r e le) = chainLastPromiseError le) ∧
    (r ≠ JSValue.undefined → REventChain.lastPromiseResult (.mk r e le) ≠ r) ∧
    (e ≠ JSValue.undefined → REventChain.lastPromiseError (.mk r e le) ≠ e) := by
  have h1 : REventChain.lastPromiseResult (.mk r e le) = chainLastPromiseResult le := by
    rw [lastPromiseResult_unfold, if_neg (by simp [hr])]
  have h2 : REventChain.lastPromiseError (.mk r e le) = chainLastPromiseError le := by
    rw [lastPromiseError_unfold, if_neg (by simp [he])]
  refine ⟨h1, h2, ?_, ?_⟩
  · intro hru hcontra
    rw [h1] at hcontra
    cases le with
    | none => exact hru hcontra.symm
    | some p =>
        have hp : chainLastPromiseResult (some p) = p.lastPromiseResult := rfl
        rw [hp] at hcontra
        rcases lastPromiseResult_truthy_or_undefined p with ht | hu
        · rw [hcontra] at ht; rw [ht] at hr; simp at hr
        · rw [hu] at hcontra; exact hru hcontra.symm
  · intro heu hcontra
    rw [h2] at hcontra
    cases le with
    | none => exact heu hcontra.symm
    | some p =>
        have hp : chainLastPromiseError (some p) = p.lastPromiseError := rfl
        rw [hp] at hcontra
        rcases lastPromiseError_truthy_or_undefined p with ht | hu
        · rw [hcontra] at ht; rw [ht] at he; simp at he
        · rw [hu] at hcontra; exact heu hcontra.symm

/-- Witness for C10 at a concrete chain: own fields set to false and 0 with a
causing event whose promise result and error are string payloads. -/
theorem lastPromise_falsy_field_treated_as_unset_witness :
    ((JSValue.bool false).truthy = false ∧ (JSValue.num 0).truthy = false)
    ∧ REventChain.lastPromiseResult
        (.mk (.bool false) (.num 0) (some (.mk (.str "payload") (.str "oops") none)))
        = JSValue.str "payload"
    ∧ (REventChain.lastPromiseResult
        (.mk (.bool false) (.num 0) (some (.mk (.str "payload") (.str "oops") none)))
        ≠ JSValue.bool false) :=
  ⟨⟨by decide, by decide⟩,
   ((lastPromise_falsy_field_treated_as_unset (.bool false) (.num 0)
      (some (.mk (.str "payload") (.str "oops") none)) (by decide) (by decide)).1).trans
     (by rw [chainLastPromiseResult, lastPromiseResult_unfold]; rfl),
   (lastPromise_falsy_field_treated_as_unset (.bool false) (.num 0)
      (some (.mk (.str "payload") (.str "oops") none)) (by decide) (by decide)).2.2.1
      (by decide)⟩

/-
Thread helper lemmas.
-/

theorem _executorDoneHandler_index (t : Thread) :
    (Thread._executorDoneHandler t).1.index = t.index + 1 := by
  obtain ⟨all, index, running, destroyed, error⟩ := t
  simp only [Thread._executorDoneHandler, Thread.removeExecutor]
  by_cases hlt : index + 1 < all.length
  · simp [hlt]
  · simp only [hlt]
    cases hexe : all[index]? with
    | none => simp
    | some id =>
        by_cases hct : id ∈ all <;> simp [hct]

theorem _executorDoneHandler_error_irrelevant (all : List Nat) (index : Nat)
    (running destroyed : Bool) (e1 e2 : Option JSValue) :
    ((Thread._executorDoneHandler ⟨all, index, running, destroyed, e1⟩).2
      = (Thread._executorDoneHandler ⟨all, index, running, destroyed, e2⟩).2)
    ∧ ((Thread._executorDoneHandler ⟨all, index, running, destroyed, e1⟩).1
      = { (Thread._executorDoneHandler ⟨all, index, running, destroyed, e2⟩).1 with error := e1 }) := by
  simp only [Thread._executorDoneHandler, Thread.removeExecutor, Thread._finCouldNotFindError]
  by_cases hlt : index + 1 < all.length
  · simp [hlt]
  · simp only [hlt]
    cases hexe : all[index]? with
    | none => simp
    | some id => by_cases hct : id ∈ all <;> simp [hct]

/-
Claim C2: a non-fatal executor failure reports onFail and then continues
exactly like a successful completion; a fatal one stops the pipeline.
-/

/-- C2: when the current Executor fails non-fatally, the internal fail-handler
invokes the caller-supplied onFail with the pipeline, the error and the fatal
flag, and then continues exactly as the done-handler would have on the same
state with the error recorded: the continuation effects and state — up to the
recorded error — coincide with those of a successful completion, in
particular the index advances.  When the failure is fatal, onFail is still
invoked but the index does not advance and no next step is scheduled or
started, so no Executor after the failing one is ever started. -/
theorem thread_nonfatal_fail_continues_fatal_stops
    (s : Thread) (ex : Nat) (err : JSValue)
    (hex : s.all[s.index]? = some ex) :
    (Thread._executorFailHandler s err false
      = ((Thread._executorDoneHandler { s with error := some err }).1,
         ThreadEffect.executorDestroyed ex :: ThreadEffect.calledFailHandler err false
           :: (Thread._executorDoneHandler { s with error := some err }).2)) ∧
    ((Thread._executorDoneHandler { s with error := some err }).2
      = (Thread._executorDoneHandler s).2) ∧
    ((Thread._executorDoneHandler { s with error := some err }).1
      = { (Thread._executorDoneHandler s).1 with error := some err }) ∧
    ((Thread._executorFailHandler s err false).1.index = s.index + 1) ∧
    (ThreadEffect.calledFailHandler err true ∈ (Thread._executorFailHandler s err true).2) ∧
    ((Thread._executorFailHandler s err true).1.index = s.index) ∧
    (∀ eff ∈ (Thread._executorFailHandler s err true).2,
      eff ≠ ThreadEffect.scheduledNext ∧ ∀ id, eff ≠ ThreadEffect.executorStarted id) := by
  obtain ⟨all, index, running, destroyed, error⟩ := s
  have hex' : all[index]? = some ex := hex
  have hA : Thread._executorFailHandler ⟨all, index, running, destroyed, error⟩ err false
      = ((Thread._executorDoneHandler ⟨all, index, running, destroyed, some err⟩).1,
         ThreadEffect.executorDestroyed ex :: ThreadEffect.calledFailHandler err false
           :: (Thread._executorDoneHandler ⟨all, index, running, destroyed, some err⟩).2) := by
    simp [Thread._executorFailHandler, hex']
  refine ⟨hA, (_executorDoneHandler_error_irrelevant all index running destroyed (some err) error).1,
          (_executorDoneHandler_error_irrelevant all index running destroyed (some err) error).2,
          ?_, ?_, ?_, ?_⟩
  · rw [hA]
    exact _executorDoneHandler_index _
  · simp only [Thread._executorFailHandler, hex', Thread.removeExecutor]
    by_cases hct : ex ∈ all <;> simp [hct]
  · simp only [Thread._executorFailHandler, hex', Thread.removeExecutor]
    by_cases hct : ex ∈ all <;> simp [hct]
  · intro eff heff
    simp only [Thread._executorFailHandler, hex', Thread.removeExecutor] at heff
    by_cases hct : ex ∈ all
    · simp [hct] at heff
      rcases heff with h | h | h <;> subst h <;>
        exact ⟨by simp, fun id => by simp⟩
    · simp [hct] at heff
      rcases heff with h | h <;> subst h <;>
        exact ⟨by simp, fun id => by simp⟩

/-- Witness for C2: a thread mid-flight on executor 5 with executor 6 pending;
a non-fatal failure advances the index, a fatal one freezes it. -/
theorem thread_nonfatal_fail_continues_fatal_stops_witness :
    midFlightThread.all[midFlightThread.index]? = some 5
    ∧ (Thread._executorFailHandler midFlightThread (.str "boom") false).1.index
        = midFlightThread.index + 1
    ∧ (Thread._executorFailHandler midFlightThread (.str "boom") true).1.index
        = midFlightThread.index :=
  ⟨rfl,
   (thread_nonfatal_fail_continues_fatal_stops midFlightThread 5 (.str "boom") rfl).2.2.2.1,
   (thread_nonfatal_fail_continues_fatal_stops midFlightThread 5 (.str "boom") rfl).2.2.2.2.2.1⟩

/-
Claim C5: kill and subsequent steps.  The source kill() only clears the
running flag; neither _executorDoneHandler nor executeNext ever reads it, so
a pipeline continues past kill().
-/

/-- C5 (code evaluation at the failing input): a two-executor pipeline is
started, kill() is called while executor 0 is in flight, executor 0 then
completes — the done-handler still schedules the next step and the scheduled
executeNext still starts executor 1, because no step consults the running
flag the kill cleared. -/
theorem thread_kill_does_not_stop_next_executor :
    Thread.run Thread.construct true [0, 1]
      = .ok ({ all := [0, 1], index := 0, running := false, destroyed := false, error := none },
             [ThreadEffect.executorStarted 0])
    ∧ (Thread.kill { all := [0, 1], index := 0, running := false, destroyed := false, error := none }).running = false
    ∧ ThreadEffect.scheduledNext ∈
        (Thread._executorDoneHandler
          (Thread.kill { all := [0, 1], index := 0, running := false, destroyed := false, error := none })).2
    ∧ ThreadEffect.executorStarted 1 ∈
        (Thread.executeNext
          (Thread._executorDoneHandler
            (Thread.kill { all := [0, 1], index := 0, running := false, destroyed := false, error := none })).1).2 :=
  ⟨rfl, rfl, by decide, by decide⟩

/-
Claim C6: the re-entrancy guard of run.  The guard tests this.running, but
run never sets running to true, so a second run during an in-progress run is
not detected; the empty-list and missing-event guards do fire.
-/

/-- C6 (code evaluation at the failing input): running a fresh single-executor
pipeline leaves running = false even though executor 0 is still in flight, so
a second run call passes the already-running guard and succeeds instead of
failing; the empty executor-factory list and the missing dispatch handle are
rejected as claimed. -/
theorem thread_run_reentrancy_guard_never_fires :
    Thread.run Thread.construct true [0]
      = .ok ({ all := [0], index := 0, running := false, destroyed := false, error := none },
             [ThreadEffect.executorStarted 0])
    ∧ ({ all := [0], index := 0, running := false, destroyed := false, error := none } : Thread).running = false
    ∧ (Thread.run { all := [0], index := 0, running := false, destroyed := false, error := none } true [1]).isOk = true
    ∧ (Thread.run Thread.construct true []).isOk = false
    ∧ (Thread.run Thread.construct false [0]).isOk = false :=
  ⟨rfl, rfl, rfl, rfl, rfl⟩

/-
Claim C7: behavior of the internal handlers on a destroyed thread whose
executor is gone.  _finCouldNotFindError silently returns, but the handler
then continues: it advances the index and still calls the caller-supplied
handler.
-/

/-- Counterexample to C7 as stated: on a destroyed thread with an emptied
executor container the done-handler does not leave the state unchanged (the
index advances from 0 to 1) and it does invoke the caller-supplied onDone. -/
theorem thread_destroyed_handler_not_a_noop :
    (Thread._executorDoneHandler destroyedThread).1.index = 1
    ∧ ThreadEffect.calledDoneHandler ∈ (Thread._executorDoneHandler destroyedThread).2
    ∧ ThreadEffect.loggedCouldNotFindError ∉ (Thread._executorDoneHandler destroyedThread).2 := by
  decide

/-- C7 as amended: when the destroyed flag is set and the executor at the
current index is missing, the handlers raise nothing and skip the diagnostic
error log, but they do not fully no-op: the done-handler still advances the
index and either schedules the next step or invokes the caller-supplied
onDone, and the fail-handler still invokes the caller-supplied onFail. -/
theorem thread_destroyed_missing_executor_skips_log_only
    (s : Thread) (err : JSValue) (k : Bool)
    (hdes : s.destroyed = true) (hmiss : s.all[s.index]? = none) :
    ((Thread._executorDoneHandler s).1.index = s.index + 1)
    ∧ (ThreadEffect.loggedCouldNotFindError ∉ (Thread._executorDoneHandler s).2)
    ∧ (s.index + 1 < s.all.length → ThreadEffect.scheduledNext ∈ (Thread._executorDoneHandler s).2)
    ∧ (¬ s.index + 1 < s.all.length → ThreadEffect.calledDoneHandler ∈ (Thread._executorDoneHandler s).2)
    ∧ (ThreadEffect.calledFailHandler err k ∈ (Thread._executorFailHandler s err k).2)
    ∧ (ThreadEffect.loggedCouldNotFindError ∉ (Thread._executorFailHandler s err k).2) := by
  obtain ⟨all, index, running, destroyed, error⟩ := s
  simp only at hdes hmiss
  subst hdes
  have hdone : ∀ e : Option JSValue,
      Thread._executorDoneHandler ⟨all, index, running, true, e⟩
        = (if index + 1 < all.length then
            (⟨all, index + 1, running, true, e⟩, [ThreadEffect.scheduledNext])
          else
            (⟨all, index + 1, running, true, e⟩, [ThreadEffect.calledDoneHandler])) := by
    intro e
    simp [Thread._executorDoneHandler, Thread._finCouldNotFindError, Thread.removeExecutor, hmiss]
  refine ⟨?_, ?_, ?_, ?_, ?_, ?_⟩
  · rw [hdone]
    by_cases hlt : index + 1 < all.length <;> simp [hlt]
  · rw [hdone]
    by_cases hlt : index + 1 < all.length <;> simp [hlt]
  · intro hlt
    rw [hdone]
    simp [hlt]
  · intro hlt
    rw [hdone]
    simp [hlt]
  · simp only [Thread._executorFailHandler, Thread._finCouldNotFindError, hmiss]
    cases k
    · rw [hdone]
      by_cases hlt : index + 1 < all.length <;> simp [hlt]
    · simp [Thread.removeExecutor]
  · simp only [Thread._executorFailHandler, Thread._finCouldNotFindError, hmiss]
    cases k
    · rw [hdone]
      by_cases hlt : index + 1 < all.length <;> simp [hlt]
    · simp [Thread.removeExecutor]

/-- Witness for the amended C7 at the torn-down fixture thread. -/
theorem thread_destroyed_missing_executor_skips_log_only_witness :
    destroyedThread.destroyed = true
    ∧ destroyedThread.all[destroyedThread.index]? = none
    ∧ ThreadEffect.loggedCouldNotFindError
        ∉ (Thread._executorDoneHandler destroyedThread).2
    ∧ ThreadEffect.calledFailHandler (.str "late") false
        ∈ (Thread._executorFailHandler destroyedThread (.str "late") false).2 :=
  ⟨rfl, rfl,
   (thread_destroyed_missing_executor_skips_log_only destroyedThread (.str "late") false rfl rfl).2.1,
   (thread_destroyed_missing_executor_skips_log_only destroyedThread (.str "late") false rfl rfl).2.2.2.2.1⟩

/-
RingaEvent helper lemmas for addListener.
-/

theorem addListener_dup (ev : REvent) (t : String) (h : Nat)
    (hc : ((assocGet? ev.listeners t).getD []).contains h = true) :
    REvent.addListener ev t h
      = .error (.thrown "RingaEvent::addListener(): the same function was added as a listener twice") := by
  have hc' : h ∈ (assocGet? ev.listeners t).getD [] := by simpa using hc
  simp [REvent.addListener, hc']

theorem addListener_ok (ev : REvent) (t : String) (h : Nat)
    (hnc : ((assocGet? ev.listeners t).getD []).contains h = false) :
    REvent.addListener ev t h = .ok
      { ev with
        listeners := assocSet (assocSet ev.listeners t ((assocGet? ev.listeners t).getD [])) t
          (((assocGet? ev.listeners t).getD []) ++ [h]),
        calls := ev.calls ++ (ev.dispatchedEvents.filter (fun d => d.type == t)).map
          (fun d => ListenerCall.mk h d.type d.detail d.error none) } := by
  have hnc' : h ∉ (assocGet? ev.listeners t).getD [] := by simpa using hnc
  simp [REvent.addListener, hnc']

theorem addListener_replays (x : REvent) (t : String) (h2 : Nat)
    (hnc : ((assocGet? x.listeners t).getD []).contains h2 = false) :
    ((REvent.addListener x t h2).isOk = true)
    ∧ ∀ ev2, REvent.addListener x t h2 = .ok ev2 →
        ∀ d ∈ x.dispatchedEvents, d.type = t →
          ListenerCall.mk h2 d.type d.detail d.error none ∈ ev2.calls := by
  rw [addListener_ok x t h2 hnc]
  refine ⟨rfl, ?_⟩
  intro ev2 hok2 d hd hdt
  have hev2 : ev2 = _ := (Except.ok.inj hok2).symm
  subst hev2
  simp only
  apply List.mem_append_right
  exact List.mem_map.mpr ⟨d, List.mem_filter.mpr ⟨hd, by simp [hdt]⟩, rfl⟩

/-
Claim C8: addListener duplicate detection and historical replay.
-/

/-- C8: after a successful addListener for a handler, adding the same handler
for the same notification type again fails; adding a different handler that
is not yet registered succeeds, and every notification of that type that was
already emitted is replayed to the new handler with the stored historical
payload. -/
theorem addListener_duplicate_fails_and_replays
    (ev : REvent) (t : String) (h h2 : Nat) (ev1 : REvent)
    (hok : REvent.addListener ev t h = .ok ev1) :
    (REvent.addListener ev1 t h
      = .error (.thrown "RingaEvent::addListener(): the same function was added as a listener twice"))
    ∧ (((assocGet? ev1.listeners t).getD []).contains h2 = false →
        ∀ ev2, REvent.addListener ev1 t h2 = .ok ev2 →
          ∀ d ∈ ev1.dispatchedEvents, d.type = t →
            ListenerCall.mk h2 d.type d.detail d.error none ∈ ev2.calls)
    ∧ (((assocGet? ev1.listeners t).getD []).contains h2 = false →
        (REvent.addListener ev1 t h2).isOk = true) := by
  have hreg : h ∈ (assocGet? ev1.listeners t).getD [] := by
    by_cases hc : ((assocGet? ev.listeners t).getD []).contains h
    · rw [addListener_dup ev t h hc] at hok
      exact absurd hok (by simp)
    · rw [addListener_ok ev t h (by simpa using hc)] at hok
      have hev1 : ev1 = _ := (Except.ok.inj hok).symm
      rw [hev1]
      simp only
      rw [assocGet?_assocSet_self]
      simp
  exact ⟨addListener_dup ev1 t h (by simpa using hreg),
         fun hnc => (addListener_replays ev1 t h2 hnc).2,
         fun hnc => (addListener_replays ev1 t h2 hnc).1⟩

/-- Witness for C8: a handle that already emitted DONE; handler 7 subscribes,
a second subscription of handler 7 fails, handler 8 succeeds and is
immediately handed the historical DONE payload. -/
theorem addListener_duplicate_fails_and_replays_witness :
    (REvent.addListener eventWithDoneDispatched REvent.DONE 7 = .ok eventAfterFirstAdd)
    ∧ REvent.addListener eventAfterFirstAdd REvent.DONE 7
        = .error (.thrown "RingaEvent::addListener(): the same function was added as a listener twice")
    ∧ ListenerCall.mk 8 REvent.DONE JSValue.undefined JSValue.undefined none ∈ eventAfterSecondAdd.calls :=
  ⟨rfl,
   (addListener_duplicate_fails_and_replays eventWithDoneDispatched REvent.DONE 7 8
      eventAfterFirstAdd rfl).1,
   (addListener_duplicate_fails_and_replays eventWithDoneDispatched REvent.DONE 7 8
      eventAfterFirstAdd rfl).2.1 (by decide) eventAfterSecondAdd rfl
      ⟨REvent.DONE, JSValue.undefined, JSValue.undefined⟩ (by decide) rfl⟩

/-
Claim C1: done/fail aggregation across two controllers.  The source of
RingaEvent._done, when errors were recorded, executes
  this._dispatchEvent(RingaEvent.FAIL, undefined, error);
with the identifier error unbound, so the completion-time FAIL can never be
emitted: evaluating the argument list raises a ReferenceError instead.
-/

/-- C1 (code evaluation at the failing input): a handle caught by controllers
1 and 2; controller 1 records a non-fatal error and reports done, controller
2 then reports done.  After the first done no DONE notification has gone out
(the in-flight list is not yet empty), and the second done — which the claim
says must emit FAIL carrying the recorded error — instead raises the
ReferenceError for the unbound identifier error, emitting nothing. -/
theorem done_with_recorded_errors_raises_reference_error :
    scenarioTwoControllersAfterFirstDone.isOk = true
    ∧ (okOr scenarioTwoControllersAfterFirstDone REvent.init).dispatchedEvents.all
        (fun d => d.type != REvent.DONE) = true
    ∧ (okOr scenarioTwoControllersAfterFirstDone REvent.init).catchers = [2]
    ∧ (okOr scenarioTwoControllersAfterFirstDone REvent.init).errors
        = some [.str "executor failure"]
    ∧ scenarioTwoControllersBothDone = .error (.referenceError "error") :=
  ⟨rfl, by decide, rfl, rfl, rfl⟩

/-
Claim C3: the factory dispatch on the run-time shape of the executee.
-/

/-- Counterexample to C3 as stated: a null executee is a value not matching
any earlier shape, so the claim requires build to fail with the
unsupported-executee error naming the offending type; instead the member
access executee.then in the promise-shape check raises a TypeError before the
dispatch reaches its final branch. -/
theorem build_null_executee_raises_typeerror :
    CommandFactory.build nullExecuteeFactory []
      = .error (.typeError "Cannot read property then of null or undefined")
    ∧ CommandFactory.build nullExecuteeFactory []
      ≠ .error (.thrown ("CommandFactory::build(): the type of executee you provided is not supported by Ring: "
          ++ TypeTag.toTypeofString TypeTag.object)) :=
  ⟨rfl, fun hcon => JSException.noConfusion (Except.error.inj hcon)⟩

/-- C3 as amended: build dispatches on the run-time shape exactly as the spec
table says for every non-nullish executee — string to event trigger, callable
then member to promise wrapper, command-class callable to a directly
instantiated command (with the declared argument names introspected on the
first build and the cache reused by subsequent builds), other callables to
function wrapper, array to parallel group, event-factory object to event
trigger, anything else to the unsupported-executee error naming the offending
typeof — while a nullish executee raises a TypeError at the then-member
access instead. -/
theorem commandFactory_build_matches_spec
    (fac : CommandFactory) (introA introB : List String) :
    (CommandFactory.build fac introA = specBuildDispatch fac introA)
    ∧ (fac.executee.tag = TypeTag.function → fac.executee.hasCallableThen = false →
       fac.executee.protoInstanceOfCommandAbstract = true → fac.executee.isNull = false →
       fac.argNames = none →
        CommandFactory.build fac introA
          = .ok (.commandInstance introA, { fac with argNames := some introA }, true)
        ∧ CommandFactory.build { fac with argNames := some introA } introB
          = .ok (.commandInstance introA, { fac with argNames := some introA }, false)) := by
  constructor
  · obtain ⟨⟨tag, isNull, hct, proto, arr, ref⟩, argNames⟩ := fac
    cases tag <;> cases isNull <;> cases hct <;> cases proto <;> cases argNames <;> rfl
  · intro htag hthen hproto hnull hcache
    obtain ⟨⟨tag, isNull, hct, proto, arr, ref⟩, argNames⟩ := fac
    simp only at htag hthen hproto hnull hcache
    subst htag hthen hproto hnull hcache
    exact ⟨rfl, rfl⟩

/-- Witness for C3 at a command-class executee: the first build introspects
and caches the argument names, the second build reuses the cache. -/
theorem commandFactory_build_matches_spec_witness :
    (commandClassFactory.executee.tag = TypeTag.function
      ∧ commandClassFactory.executee.hasCallableThen = false
      ∧ commandClassFactory.executee.protoInstanceOfCommandAbstract = true
      ∧ commandClassFactory.executee.isNull = false
      ∧ commandClassFactory.argNames = none)
    ∧ CommandFactory.build commandClassFactory ["user", "filter"]
        = .ok (.commandInstance ["user", "filter"],
               { commandClassFactory with argNames := some ["user", "filter"] }, true)
    ∧ CommandFactory.build { commandClassFactory with argNames := some ["user", "filter"] } ["other"]
        = .ok (.commandInstance ["user", "filter"],
               { commandClassFactory with argNames := some ["user", "filter"] }, false) :=
  ⟨⟨rfl, rfl, rfl, rfl, rfl⟩,
   ((commandFactory_build_matches_spec commandClassFactory ["user", "filter"] ["other"]).2
      rfl rfl rfl rfl rfl).1,
   ((commandFactory_build_matches_spec commandClassFactory ["user", "filter"] ["other"]).2
      rfl rfl rfl rfl rfl).2⟩
